import Mathlib

/-!
Verification development for the datastore protocol-buffer schema converter
(google/appengine/datastore/datastore_pbs.py).

The converter translates keys, entities, properties, values and filters
between three wire-schema generations: v3 (legacy EntityProto family), v4
(entity_v4) and v1 (googledatastore).  The Python source operates on
protocol-buffer messages; here each message is embedded as a Lean structure
or inductive whose optional fields are Options (modelling proto field
presence, the HasField checks of the source).  Byte strings are lists of
byte values; text string fields of the modern schemas are modelled at the
byte level (UTF-8 encode/decode between valid byte sequences and text is a
bijection, so encode and decode become the identity in this model).  Double
fields are only ever copied by the converter, never computed with, so they
are modelled as exact rationals.
-/

/-- Byte strings (Python bytes); each entry is one byte value. -/
abbrev Bytes := List Nat

/-- ASCII byte encoding of a literal, used to build concrete inputs. -/
def asciiBytes (s : String) : Bytes := s.data.map (fun c => c.toNat)

/-- Render a byte string as text for error messages (ASCII range). -/
def bytesAscii (bs : Bytes) : String := String.mk (bs.map (fun b => Char.ofNat b))

/-- Lookup in an association list with Python dict semantics: a later
binding for the same key overrides an earlier one. -/
def dictLookup {α : Type} (m : List (Bytes × α)) (k : Bytes) : Option α :=
  m.foldl (fun acc kv => if kv.fst = k then some kv.snd else acc) none

/-- Store a binding with Python dict / proto map semantics: overwrite in
place when the key exists, append at the end otherwise. -/
def mapSet {α : Type} (m : List (Bytes × α)) (k : Bytes) (v : α) : List (Bytes × α) :=
  if (dictLookup m k).isSome then
    m.map (fun kv => if kv.fst = k then (k, v) else kv)
  else m ++ [(k, v)]

/-! Module-level meaning constants of datastore_pbs.py. -/

def MEANING_ATOM_CATEGORY : Nat := 1
def MEANING_URL : Nat := 2
def MEANING_ATOM_TITLE : Nat := 3
def MEANING_ATOM_CONTENT : Nat := 4
def MEANING_ATOM_SUMMARY : Nat := 5
def MEANING_ATOM_AUTHOR : Nat := 6
def MEANING_NON_RFC_3339_TIMESTAMP : Nat := 7
def MEANING_GD_EMAIL : Nat := 8
def MEANING_GEORSS_POINT : Nat := 9
def MEANING_GD_IM : Nat := 10
def MEANING_GD_PHONENUMBER : Nat := 11
def MEANING_GD_POSTALADDRESS : Nat := 12
def MEANING_PERCENT : Nat := 13
def MEANING_TEXT : Nat := 15
def MEANING_BYTESTRING : Nat := 16
def MEANING_BLOBKEY : Nat := 17
def MEANING_INDEX_ONLY : Nat := 18
def MEANING_PREDEFINED_ENTITY_USER : Nat := 20
def MEANING_PREDEFINED_ENTITY_POINT : Nat := 21
def MEANING_ZLIB : Nat := 22
def MEANING_POINT_WITHOUT_V3_MEANING : Nat := 23
def MEANING_EMPTY_LIST : Nat := 24

/-- The meaning_uri constant marking zlib-compressed blobs. -/
def URI_MEANING_ZLIB : Bytes := asciiBytes ("ZLIB")

/-!
Values of the v3 Property.Meaning enum (entity_bytes_pb2.Property), an
external schema declaration referenced throughout the source.  The numeric
values coincide with the module constants above for the shared meanings.
-/

namespace PropertyMeaning

def NO_MEANING : Nat := 0
def ATOM_CATEGORY : Nat := 1
def ATOM_LINK : Nat := 2
def ATOM_TITLE : Nat := 3
def ATOM_CONTENT : Nat := 4
def ATOM_SUMMARY : Nat := 5
def ATOM_AUTHOR : Nat := 6
def GD_WHEN : Nat := 7
def GD_EMAIL : Nat := 8
def GEORSS_POINT : Nat := 9
def GD_IM : Nat := 10
def GD_PHONENUMBER : Nat := 11
def GD_POSTALADDRESS : Nat := 12
def GD_RATING : Nat := 13
def BLOB : Nat := 14
def TEXT : Nat := 15
def BYTESTRING : Nat := 16
def BLOBKEY : Nat := 17
def INDEX_VALUE : Nat := 18
def ENTITY_PROTO : Nat := 19
def EMPTY_LIST : Nat := 24

end PropertyMeaning

/-- Embedded point and user property names from the source. -/
def PROPERTY_NAME_X : Bytes := asciiBytes ("x")

def PROPERTY_NAME_Y : Bytes := asciiBytes ("y")

def PROPERTY_NAME_EMAIL : Bytes := asciiBytes ("email")

def PROPERTY_NAME_AUTH_DOMAIN : Bytes := asciiBytes ("auth_domain")

def PROPERTY_NAME_USER_ID : Bytes := asciiBytes ("user_id")

def PROPERTY_NAME_INTERNAL_ID : Bytes := asciiBytes ("internal_id")

def PROPERTY_NAME_FEDERATED_IDENTITY : Bytes := asciiBytes ("federated_identity")

def PROPERTY_NAME_FEDERATED_PROVIDER : Bytes := asciiBytes ("federated_provider")

def PROPERTY_NAME_KEY : Bytes := asciiBytes ("__key__")

def RFC_3339_MIN_MICROSECONDS_INCLUSIVE : Int := -62135596800 * 1000 * 1000

def RFC_3339_MAX_MICROSECONDS_INCLUSIVE : Int := 253402300799 * 1000 * 1000 + 999999

def is_in_rfc_3339_bounds (microseconds : Int) : Bool :=
  decide (RFC_3339_MIN_MICROSECONDS_INCLUSIVE ≤ microseconds ∧
    microseconds ≤ RFC_3339_MAX_MICROSECONDS_INCLUSIVE)

/-- Strict UTF-8 validity of a byte string, as decided by the decode step of
is_valid_utf8 in the source (the Python strict codec implements RFC 3629:
no overlong encodings, no surrogates, maximum code point U+10FFFF). -/
def is_valid_utf8 : Bytes → Bool
  | [] => true
  | b :: rest =>
    if b ≤ 0x7F then is_valid_utf8 rest
    else if 0xC2 ≤ b ∧ b ≤ 0xDF then
      match rest with
      | b1 :: rest1 => decide (0x80 ≤ b1 ∧ b1 ≤ 0xBF) && is_valid_utf8 rest1
      | [] => false
    else if b = 0xE0 then
      match rest with
      | b1 :: b2 :: rest2 =>
        decide (0xA0 ≤ b1 ∧ b1 ≤ 0xBF) && decide (0x80 ≤ b2 ∧ b2 ≤ 0xBF) &&
          is_valid_utf8 rest2
      | _ => false
    else if (0xE1 ≤ b ∧ b ≤ 0xEC) ∨ b = 0xEE ∨ b = 0xEF then
      match rest with
      | b1 :: b2 :: rest2 =>
        decide (0x80 ≤ b1 ∧ b1 ≤ 0xBF) && decide (0x80 ≤ b2 ∧ b2 ≤ 0xBF) &&
          is_valid_utf8 rest2
      | _ => false
    else if b = 0xED then
      match rest with
      | b1 :: b2 :: rest2 =>
        decide (0x80 ≤ b1 ∧ b1 ≤ 0x9F) && decide (0x80 ≤ b2 ∧ b2 ≤ 0xBF) &&
          is_valid_utf8 rest2
      | _ => false
    else if b = 0xF0 then
      match rest with
      | b1 :: b2 :: b3 :: rest3 =>
        decide (0x90 ≤ b1 ∧ b1 ≤ 0xBF) && decide (0x80 ≤ b2 ∧ b2 ≤ 0xBF) &&
          decide (0x80 ≤ b3 ∧ b3 ≤ 0xBF) && is_valid_utf8 rest3
      | _ => false
    else if 0xF1 ≤ b ∧ b ≤ 0xF3 then
      match rest with
      | b1 :: b2 :: b3 :: rest3 =>
        decide (0x80 ≤ b1 ∧ b1 ≤ 0xBF) && decide (0x80 ≤ b2 ∧ b2 ≤ 0xBF) &&
          decide (0x80 ≤ b3 ∧ b3 ≤ 0xBF) && is_valid_utf8 rest3
      | _ => false
    else if b = 0xF4 then
      match rest with
      | b1 :: b2 :: b3 :: rest3 =>
        decide (0x80 ≤ b1 ∧ b1 ≤ 0x8F) && decide (0x80 ≤ b2 ∧ b2 ≤ 0xBF) &&
          decide (0x80 ≤ b3 ∧ b3 ≤ 0xBF) && is_valid_utf8 rest3
      | _ => false
    else false

/-!
Failure modes of the conversion functions.  InvalidConversionError (raised
through check_conversion) is the single documented error kind; keyError
models a Python KeyError escaping from a plain dict subscript; an
assertionFailed models a failing assert statement; typeError models a
Python TypeError (such as calling a non-callable object); outOfFuel is an
artifact of the fuel parameter bounding the recursion of the embedding and
is distinguishable from every real failure.
-/

inductive ConvError where
  | invalidConversion (message : String)
  | keyError (key : Bytes)
  | assertionFailed (message : String)
  | typeError (message : String)
  | outOfFuel
deriving DecidableEq, Repr

/-- check_conversion: raise InvalidConversionError when the condition fails. -/
def check_conversion (condition : Bool) (message : String) : Except ConvError Unit :=
  if condition then .ok () else .error (.invalidConversion message)

/-- Python dict subscript: raises KeyError when the key is absent. -/
def dictGet {α : Type} (m : List (Bytes × α)) (k : Bytes) : Except ConvError α :=
  match dictLookup m k with
  | some v => pure v
  | none => throw (.keyError k)

/-! v3 wire schema (entity_bytes_pb2): Reference, Path, PropertyValue,
Property, EntityProto.  Optional proto fields with presence become Options. -/

structure V3PathElement where
  type : Option Bytes := none
  id : Option Int := none
  name : Option Bytes := none
deriving DecidableEq, Repr, Inhabited

structure V3Path where
  element : List V3PathElement := []
deriving DecidableEq, Repr, Inhabited

structure V3Reference where
  app : Option Bytes := none
  name_space : Option Bytes := none
  path : V3Path := {}
deriving DecidableEq, Repr, Inhabited

/-- Python attribute read of the app field: default empty when unset. -/
def V3Reference.appRead (r : V3Reference) : Bytes := r.app.getD []

/-- Python attribute read of the name_space field. -/
def V3Reference.nameSpaceRead (r : V3Reference) : Bytes := r.name_space.getD []

structure V3PointValue where
  x : Rat := 0
  y : Rat := 0
deriving DecidableEq, Repr, Inhabited

structure V3UserValue where
  email : Option Bytes := none
  auth_domain : Option Bytes := none
  gaiaid : Option Int := none
  obfuscated_gaiaid : Option Bytes := none
  federated_identity : Option Bytes := none
  federated_provider : Option Bytes := none
deriving DecidableEq, Repr, Inhabited

structure V3ReferenceValue where
  app : Option Bytes := none
  name_space : Option Bytes := none
  pathelement : List V3PathElement := []
deriving DecidableEq, Repr, Inhabited

structure V3PropertyValue where
  booleanValue : Option Bool := none
  int64Value : Option Int := none
  doubleValue : Option Rat := none
  stringValue : Option Bytes := none
  pointvalue : Option V3PointValue := none
  uservalue : Option V3UserValue := none
  referencevalue : Option V3ReferenceValue := none
deriving DecidableEq, Repr, Inhabited

structure V3Property where
  name : Bytes := []
  meaning : Nat := 0
  meaning_uri : Bytes := []
  multiple : Bool := false
  value : V3PropertyValue := {}
deriving DecidableEq, Repr, Inhabited

structure V3EntityProto where
  key : V3Reference := {}
  entity_group : V3Path := {}
  property : List V3Property := []
  raw_property : List V3Property := []
deriving DecidableEq, Repr, Inhabited

/-! v4 wire schema (entity_v4_pb2): Key, Value, Entity.  The Value message
of entity_v4 is proto2-style: separate optional fields with presence; its
indexed field has declared default true (the declaration is external to
this repository). -/

structure V4PartitionId where
  dataset_id : Option Bytes := none
  namespace_ : Option Bytes := none
deriving DecidableEq, Repr, Inhabited

structure V4PathElement where
  kind : Bytes := []
  id : Option Int := none
  name : Option Bytes := none
deriving DecidableEq, Repr, Inhabited

structure V4Key where
  partition_id : Option V4PartitionId := none
  path_element : List V4PathElement := []
deriving DecidableEq, Repr, Inhabited

structure V4GeoPoint where
  latitude : Rat := 0
  longitude : Rat := 0
deriving DecidableEq, Repr, Inhabited

/-- The non-recursive fields of a v4 Value. -/
structure V4Scalar where
  boolean_value : Option Bool := none
  integer_value : Option Int := none
  double_value : Option Rat := none
  timestamp_microseconds_value : Option Int := none
  key_value : Option V4Key := none
  blob_key_value : Option Bytes := none
  string_value : Option Bytes := none
  blob_value : Option Bytes := none
  geo_point_value : Option V4GeoPoint := none
  meaning : Option Nat := none
  indexed : Option Bool := none
deriving DecidableEq, Repr, Inhabited

mutual

inductive V4Value where
  | mk (scalar : V4Scalar) (entity_value : Option V4Entity) (list_value : List V4Value)

inductive V4Entity where
  | mk (key : Option V4Key) (property : List (Bytes × V4Value))

end

def V4Value.scalar : V4Value → V4Scalar
  | .mk s _ _ => s

def V4Value.entity_value : V4Value → Option V4Entity
  | .mk _ e _ => e

def V4Value.list_value : V4Value → List V4Value
  | .mk _ _ l => l

def V4Value.withScalar : V4Value → V4Scalar → V4Value
  | .mk _ e l, s => .mk s e l

def V4Value.empty : V4Value := .mk {} none []

/-- Python attribute read of the meaning field: default 0 when unset. -/
def V4Value.meaningRead (v : V4Value) : Nat := v.scalar.meaning.getD 0

/-- Python attribute read of the indexed field: proto declared default true. -/
def V4Value.indexedRead (v : V4Value) : Bool := v.scalar.indexed.getD true

def V4Entity.key : V4Entity → Option V4Key
  | .mk k _ => k

def V4Entity.property : V4Entity → List (Bytes × V4Value)
  | .mk _ p => p

/-! v1 wire schema (googledatastore): Key, Value, Entity.  proto3: scalar
fields have no presence (defaults read back), the value payload is a oneof,
message fields and oneof members keep presence.  The Timestamp payload is
modelled by its microsecond count, matching how the source only ever moves
timestamps through the helper pair micros_from_timestamp and
micros_to_timestamp. -/

structure V1PartitionId where
  project_id : Bytes := []
  namespace_id : Bytes := []
deriving DecidableEq, Repr, Inhabited

inductive V1IdType where
  | id (i : Int)
  | name (n : Bytes)
deriving DecidableEq, Repr

structure V1PathElement where
  kind : Bytes := []
  id_type : Option V1IdType := none
deriving DecidableEq, Repr, Inhabited

structure V1Key where
  partition_id : Option V1PartitionId := none
  path : List V1PathElement := []
deriving DecidableEq, Repr, Inhabited

mutual

inductive V1Value where
  | mk (value_type : Option V1ValueType) (meaning : Nat) (exclude_from_indexes : Bool)

inductive V1ValueType where
  | null_value
  | boolean_value (b : Bool)
  | integer_value (i : Int)
  | double_value (d : Rat)
  | timestamp_value (micros : Int)
  | key_value (k : V1Key)
  | string_value (s : Bytes)
  | blob_value (b : Bytes)
  | geo_point_value (latitude longitude : Rat)
  | entity_value (e : V1Entity)
  | array_value (values : List V1Value)

inductive V1Entity where
  | mk (key : Option V1Key) (properties : List (Bytes × V1Value))

end

def V1Value.value_type : V1Value → Option V1ValueType
  | .mk vt _ _ => vt

def V1Value.meaning : V1Value → Nat
  | .mk _ m _ => m

def V1Value.exclude_from_indexes : V1Value → Bool
  | .mk _ _ e => e

/-- A freshly constructed (or cleared) v1 Value: oneof unset, defaults. -/
def V1Value.empty : V1Value := .mk none 0 false

def V1Entity.key : V1Entity → Option V1Key
  | .mk k _ => k

def V1Entity.properties : V1Entity → List (Bytes × V1Value)
  | .mk _ p => p

/-- proto map subscript read: a missing key yields a default-valued entry. -/
def v1MapGet (m : List (Bytes × V1Value)) (k : Bytes) : V1Value :=
  (dictLookup m k).getD V1Value.empty

/-!
Identifier Resolver (IdResolver and _IdentityIdResolver).  The table
constructor models the Python dict built in IdResolver.__init__; the
identity constructor models the _IdentityIdResolver subclass whose two
methods return their argument unchanged.
-/

/-- Suffix of a byte string after the last tilde byte, the whole string
when no tilde occurs: app_id.rsplit of the tilde separator, last piece. -/
def rsplit_tilde_last (app_id : Bytes) : Bytes :=
  app_id.foldl (fun acc b => if b = 126 then [] else acc ++ [b]) []

inductive IdResolver where
  | table (resolver_map : List (Bytes × Bytes))
  | identity
deriving DecidableEq, Repr

/-- IdResolver.resolve_project_id: strip any shard prefix; the identity
resolver returns its input unchanged. -/
def IdResolver.resolve_project_id : IdResolver → Bytes → Bytes
  | .table _, app_id => rsplit_tilde_last app_id
  | .identity, app_id => app_id

/-- IdResolver.__init__: build the project id to application id table from
the supplied application ids. -/
def IdResolver.ofAppIds (app_ids : List Bytes) : IdResolver :=
  .table (app_ids.foldl (fun m app_id => mapSet m (rsplit_tilde_last app_id) app_id) [])

/-- IdResolver.resolve_app_id: table lookup, InvalidConversionError naming
the project id when it is not in the table; the identity resolver returns
its input unchanged and never fails. -/
def IdResolver.resolve_app_id : IdResolver → Bytes → Except ConvError Bytes
  | .table m, project_id => do
    check_conversion (dictLookup m project_id).isSome
      ("Cannot determine application id for provided project id: \"" ++
        bytesAscii project_id ++ "\".")
    pure ((dictLookup m project_id).getD [])
  | .identity, project_id => pure project_id

/-! Key and reference conversion. -/

/-- v4_to_v3_reference: populate a fresh v3 Reference from a v4 Key. -/
def v4_to_v3_reference (v4_key : V4Key) : V3Reference :=
  { app := match v4_key.partition_id with
      | some pid => pid.dataset_id
      | none => none,
    name_space := match v4_key.partition_id with
      | some pid => pid.namespace_
      | none => none,
    path := { element := v4_key.path_element.map (fun v4_element =>
      { type := some v4_element.kind, id := v4_element.id, name := v4_element.name }) } }

/-- v3_to_v4_key: populate a fresh v4 Key from a v3 Reference; an empty or
absent app leaves the destination entirely cleared (early return). -/
def v3_to_v4_key (v3_ref : V3Reference) : V4Key :=
  if v3_ref.appRead = [] then {}
  else
    { partition_id := some
        { dataset_id := some v3_ref.appRead,
          namespace_ := if v3_ref.nameSpaceRead = [] then none
            else some v3_ref.nameSpaceRead },
      path_element := v3_ref.path.element.map (fun v3_element =>
        { kind := v3_element.type.getD [], id := v3_element.id,
          name := v3_element.name }) }

/-- v1_to_v3_reference: populate a fresh v3 Reference from a v1 Key,
resolving the project id through the Identifier Resolver. -/
def v1_to_v3_reference (res : IdResolver) (v1_key : V1Key) :
    Except ConvError V3Reference := do
  let mut app : Option Bytes := none
  let mut ns : Option Bytes := none
  match v1_key.partition_id with
  | some pid =>
    if pid.project_id ≠ [] then
      app := some (← res.resolve_app_id pid.project_id)
    if pid.namespace_id ≠ [] then
      ns := some pid.namespace_id
  | none => pure ()
  let elems := v1_key.path.map (fun v1_element =>
    ({ type := some v1_element.kind,
       id := match v1_element.id_type with
         | some (.id i) => some i
         | _ => none,
       name := match v1_element.id_type with
         | some (.name n) => some n
         | _ => none } : V3PathElement))
  pure { app := app, name_space := ns, path := { element := elems } }

/-- v3_to_v1_key: populate a fresh v1 Key from a v3 Reference; an empty or
absent app leaves the destination entirely cleared (early return).  In the
path, the source copies id then name into the oneof, so a name overrides a
simultaneously present id. -/
def v3_to_v1_key (res : IdResolver) (v3_ref : V3Reference) : V1Key :=
  if v3_ref.appRead = [] then {}
  else
    { partition_id := some
        { project_id := res.resolve_project_id v3_ref.appRead,
          namespace_id := v3_ref.nameSpaceRead },
      path := v3_ref.path.element.map (fun v3_element =>
        { kind := v3_element.type.getD [],
          id_type := match v3_element.name with
            | some n => some (.name n)
            | none => match v3_element.id with
              | some i => some (.id i)
              | none => none }) }

/-- is_complete_v3_key: the last path element carries a nonzero id or a
nonempty name (Python truthiness of the field values).  The source asserts
a nonempty path; the empty case is modelled as false and the claims are
restricted to nonempty paths. -/
def is_complete_v3_key (v3_key : V3Reference) : Bool :=
  match v3_key.path.element.getLast? with
  | none => false
  | some last_element =>
    (last_element.id.isSome && decide (last_element.id.getD 0 ≠ 0)) ||
      (last_element.name.isSome && decide (last_element.name.getD [] ≠ []))

/-- is_complete_v4_key: the source asserts a nonempty path and then
obtains the last element with a call, path_element applied to an index,
instead of a subscript; a pb2 repeated-field container is not callable, so
for every key with a nonempty path the predicate raises TypeError and the
HasField test on id and name is never reached. -/
def is_complete_v4_key (v4_key : V4Key) : Except ConvError Bool :=
  match v4_key.path_element with
  | [] => throw (.assertionFailed ("is_complete_v4_key requires a nonempty path"))
  | _ :: _ =>
    throw (.typeError ("RepeatedCompositeContainer object is not callable"))

/-- is_complete_v1_key: the id_type oneof of the last path element is set.
The source asserts a nonempty path; the empty case is modelled as false. -/
def is_complete_v1_key (v1_key : V1Key) : Bool :=
  match v1_key.path.getLast? with
  | none => false
  | some last_element => last_element.id_type.isSome

/-- copy_path_element: field-presence-respecting copy onto a fresh element. -/
def copy_path_element (source : V3PathElement) : V3PathElement :=
  { type := source.type, id := source.id, name := source.name }

/-- v3_reference_to_group: a Path holding only the first element of the
Reference path; the source asserts the path is nonempty. -/
def v3_reference_to_group (v3_ref : V3Reference) : Except ConvError V3Path :=
  match v3_ref.path.element with
  | [] => throw (.assertionFailed ("v3_reference_to_group requires a nonempty path"))
  | e :: _ => pure { element := [copy_path_element e] }

/-- v3_reference_to_v3_property_value: embed a Reference as a
ReferenceValue inside a fresh PropertyValue. -/
def v3_reference_to_v3_property_value (v3_ref : V3Reference) : V3PropertyValue :=
  { referencevalue := some
      { app := v3_ref.app, name_space := v3_ref.name_space,
        pathelement := v3_ref.path.element.map copy_path_element } }

/-- __v3_reference_value_to_v3_reference: rebuild a Reference from an
embedded ReferenceValue. -/
def v3_reference_value_to_v3_reference (v3_ref_value : V3ReferenceValue) : V3Reference :=
  { app := v3_ref_value.app, name_space := v3_ref_value.name_space,
    path := { element := v3_ref_value.pathelement.map copy_path_element } }

/-!
External protobuf-runtime boundary.  Embedded serialized entities go
through the wire codec of the protobuf library, which is not part of this
repository; the claims in scope never exercise these paths.
-/

/-- Modelled from the spec: EntityProto.SerializePartialToString, the wire
encoding of the external protobuf runtime (absent from src).  No claim in
scope depends on the encoding; it is modelled as a placeholder returning
the empty byte string. -/
def serializePartialToString (_v3_entity : V3EntityProto) : Bytes := []

/-- Modelled from the spec: ParsePartialFromString composed with
v3_to_v4_entity, the decoding half of the external protobuf wire format
(absent from src) followed by entity conversion.  Since the parse
placeholder yields the empty EntityProto, the composite yields the
conversion of the empty EntityProto, which is the empty v4 Entity. -/
def parse_and_v3_to_v4_entity (_serialized : Bytes) : V4Entity := V4Entity.mk none []

/-- Modelled from the spec: ParseFromString composed with v3_to_v1_entity,
analogous to the v4 composite above; the conversion of the empty
EntityProto is the empty v1 Entity. -/
def parse_and_v3_to_v1_entity (_res : IdResolver) (_serialized : Bytes) : V1Entity :=
  V1Entity.mk none []

/-! Embedded point and user entities. -/

/-- __build_name_to_v4_property_map: Python dict from property name to the
property (modelled by its value); later entries override earlier ones. -/
def build_name_to_v4_property_map (v4_entity : V4Entity) : List (Bytes × V4Value) :=
  v4_entity.property.foldl (fun m p => mapSet m p.fst p.snd) []

/-- __get_v4_integer_value. -/
def get_v4_integer_value (v4_value : V4Value) : Except ConvError Int := do
  check_conversion v4_value.scalar.integer_value.isSome
    ("Property does not contain an integer value.")
  pure (v4_value.scalar.integer_value.getD 0)

/-- __get_v4_double_value. -/
def get_v4_double_value (v4_value : V4Value) : Except ConvError Rat := do
  check_conversion v4_value.scalar.double_value.isSome
    ("Property does not contain a double value.")
  pure (v4_value.scalar.double_value.getD 0)

/-- __get_v4_string_value. -/
def get_v4_string_value (v4_value : V4Value) : Except ConvError Bytes := do
  check_conversion v4_value.scalar.string_value.isSome
    ("Property does not contain a string value.")
  pure (v4_value.scalar.string_value.getD [])

/-- __v4_integer_property: a fresh single-integer-valued v4 property. -/
def v4_integer_property (name : Bytes) (value : Int) (indexed : Bool) :
    Bytes × V4Value :=
  (name, V4Value.mk { indexed := some indexed, integer_value := some value } none [])

/-- __v4_double_property: a fresh single-double-valued v4 property. -/
def v4_double_property (name : Bytes) (value : Rat) (indexed : Bool) :
    Bytes × V4Value :=
  (name, V4Value.mk { indexed := some indexed, double_value := some value } none [])

/-- __v4_string_property: a fresh single-string-valued v4 property. -/
def v4_string_property (name : Bytes) (value : Bytes) (indexed : Bool) :
    Bytes × V4Value :=
  (name, V4Value.mk { indexed := some indexed, string_value := some value } none [])

/-- __v4_to_v3_point_value: decode an embedded point entity; the x and y
lookups are plain dict subscripts (KeyError when absent), the double reads
are checked conversions. -/
def v4_to_v3_point_value (v4_point_entity : V4Entity) : Except ConvError V3PointValue := do
  let name_to_v4_property := build_name_to_v4_property_map v4_point_entity
  let x ← get_v4_double_value (← dictGet name_to_v4_property PROPERTY_NAME_X)
  let y ← get_v4_double_value (← dictGet name_to_v4_property PROPERTY_NAME_Y)
  pure { x := x, y := y }

/-- __v3_to_v4_point_entity: encode a point as an entity with unindexed
double properties named x and y. -/
def v3_to_v4_point_entity (v3_point_value : V3PointValue) : V4Entity :=
  V4Entity.mk none
    [v4_double_property PROPERTY_NAME_X v3_point_value.x false,
     v4_double_property PROPERTY_NAME_Y v3_point_value.y false]

/-- v4_entity_to_v3_user_value: decode an embedded user entity.  email and
auth_domain are required (dict subscript then checked string read); the
remaining fields are reconstructed only when present, except gaiaid which
defaults to 0 when internal_id is absent. -/
def v4_entity_to_v3_user_value (v4_user_entity : V4Entity) :
    Except ConvError V3UserValue := do
  let name_to_v4_property := build_name_to_v4_property_map v4_user_entity
  let email ← get_v4_string_value (← dictGet name_to_v4_property PROPERTY_NAME_EMAIL)
  let auth_domain ← get_v4_string_value
    (← dictGet name_to_v4_property PROPERTY_NAME_AUTH_DOMAIN)
  let mut u : V3UserValue := { email := some email, auth_domain := some auth_domain }
  if (dictLookup name_to_v4_property PROPERTY_NAME_USER_ID).isSome then
    u := { u with obfuscated_gaiaid := some (← get_v4_string_value
      (← dictGet name_to_v4_property PROPERTY_NAME_USER_ID)) }
  if (dictLookup name_to_v4_property PROPERTY_NAME_INTERNAL_ID).isSome then
    u := { u with gaiaid := some (← get_v4_integer_value
      (← dictGet name_to_v4_property PROPERTY_NAME_INTERNAL_ID)) }
  else
    u := { u with gaiaid := some 0 }
  if (dictLookup name_to_v4_property PROPERTY_NAME_FEDERATED_IDENTITY).isSome then
    u := { u with federated_identity := some (← get_v4_string_value
      (← dictGet name_to_v4_property PROPERTY_NAME_FEDERATED_IDENTITY)) }
  if (dictLookup name_to_v4_property PROPERTY_NAME_FEDERATED_PROVIDER).isSome then
    u := { u with federated_provider := some (← get_v4_string_value
      (← dictGet name_to_v4_property PROPERTY_NAME_FEDERATED_PROVIDER)) }
  pure u

/-- v3_user_value_to_v4_entity: encode a user value as an entity with
unindexed properties; internal_id is emitted only for a nonzero gaiaid, the
other optional fields only when present. -/
def v3_user_value_to_v4_entity (v3_user_value : V3UserValue) : V4Entity :=
  let props := [v4_string_property PROPERTY_NAME_EMAIL (v3_user_value.email.getD []) false,
    v4_string_property PROPERTY_NAME_AUTH_DOMAIN (v3_user_value.auth_domain.getD []) false]
  let props := if v3_user_value.gaiaid.getD 0 ≠ 0 then
      props ++ [v4_integer_property PROPERTY_NAME_INTERNAL_ID
        (v3_user_value.gaiaid.getD 0) false]
    else props
  let props := match v3_user_value.obfuscated_gaiaid with
    | some og => props ++ [v4_string_property PROPERTY_NAME_USER_ID og false]
    | none => props
  let props := match v3_user_value.federated_identity with
    | some fi => props ++ [v4_string_property PROPERTY_NAME_FEDERATED_IDENTITY fi false]
    | none => props
  let props := match v3_user_value.federated_provider with
    | some fp => props ++ [v4_string_property PROPERTY_NAME_FEDERATED_PROVIDER fp false]
    | none => props
  V4Entity.mk none props

/-- __get_v1_integer_value. -/
def get_v1_integer_value (v1_value : V1Value) : Except ConvError Int := do
  check_conversion (match v1_value.value_type with
    | some (.integer_value _) => true
    | _ => false) ("Value does not contain an integer value.")
  pure (match v1_value.value_type with
    | some (.integer_value i) => i
    | _ => 0)

/-- __get_v1_double_value. -/
def get_v1_double_value (v1_value : V1Value) : Except ConvError Rat := do
  check_conversion (match v1_value.value_type with
    | some (.double_value _) => true
    | _ => false) ("Value does not contain a double value.")
  pure (match v1_value.value_type with
    | some (.double_value d) => d
    | _ => 0)

/-- __get_v1_string_value. -/
def get_v1_string_value (v1_value : V1Value) : Except ConvError Bytes := do
  check_conversion (match v1_value.value_type with
    | some (.string_value _) => true
    | _ => false) ("Value does not contain a string value.")
  pure (match v1_value.value_type with
    | some (.string_value s) => s
    | _ => [])

/-- __v1_integer_property: populate a single-integer-valued property in the
properties map (the existing meaning of a reused entry persists). -/
def v1_integer_property (props : List (Bytes × V1Value)) (name : Bytes)
    (value : Int) (indexed : Bool) : List (Bytes × V1Value) :=
  let cur := v1MapGet props name
  mapSet props name (V1Value.mk (some (.integer_value value)) cur.meaning (!indexed))

/-- __v1_double_property. -/
def v1_double_property (props : List (Bytes × V1Value)) (name : Bytes)
    (value : Rat) (indexed : Bool) : List (Bytes × V1Value) :=
  let cur := v1MapGet props name
  mapSet props name (V1Value.mk (some (.double_value value)) cur.meaning (!indexed))

/-- __v1_string_property. -/
def v1_string_property (props : List (Bytes × V1Value)) (name : Bytes)
    (value : Bytes) (indexed : Bool) : List (Bytes × V1Value) :=
  let cur := v1MapGet props name
  mapSet props name (V1Value.mk (some (.string_value value)) cur.meaning (!indexed))

/-- v1_entity_to_v3_user_value: decode an embedded user entity; required
reads go through the auto-defaulting proto map, so an absent field fails
the checked string read with InvalidConversionError. -/
def v1_entity_to_v3_user_value (v1_user_entity : V1Entity) :
    Except ConvError V3UserValue := do
  let properties := v1_user_entity.properties
  let email ← get_v1_string_value (v1MapGet properties PROPERTY_NAME_EMAIL)
  let auth_domain ← get_v1_string_value (v1MapGet properties PROPERTY_NAME_AUTH_DOMAIN)
  let mut u : V3UserValue := { email := some email, auth_domain := some auth_domain }
  if (dictLookup properties PROPERTY_NAME_USER_ID).isSome then
    u := { u with obfuscated_gaiaid := some (← get_v1_string_value
      (v1MapGet properties PROPERTY_NAME_USER_ID)) }
  if (dictLookup properties PROPERTY_NAME_INTERNAL_ID).isSome then
    u := { u with gaiaid := some (← get_v1_integer_value
      (v1MapGet properties PROPERTY_NAME_INTERNAL_ID)) }
  else
    u := { u with gaiaid := some 0 }
  if (dictLookup properties PROPERTY_NAME_FEDERATED_IDENTITY).isSome then
    u := { u with federated_identity := some (← get_v1_string_value
      (v1MapGet properties PROPERTY_NAME_FEDERATED_IDENTITY)) }
  if (dictLookup properties PROPERTY_NAME_FEDERATED_PROVIDER).isSome then
    u := { u with federated_provider := some (← get_v1_string_value
      (v1MapGet properties PROPERTY_NAME_FEDERATED_PROVIDER)) }
  pure u

/-- v3_user_value_to_v1_entity. -/
def v3_user_value_to_v1_entity (v3_user_value : V3UserValue) : V1Entity :=
  let props := v1_string_property [] PROPERTY_NAME_EMAIL
    (v3_user_value.email.getD []) false
  let props := v1_string_property props PROPERTY_NAME_AUTH_DOMAIN
    (v3_user_value.auth_domain.getD []) false
  let props := if v3_user_value.gaiaid.getD 0 ≠ 0 then
      v1_integer_property props PROPERTY_NAME_INTERNAL_ID
        (v3_user_value.gaiaid.getD 0) false
    else props
  let props := match v3_user_value.obfuscated_gaiaid with
    | some og => v1_string_property props PROPERTY_NAME_USER_ID og false
    | none => props
  let props := match v3_user_value.federated_identity with
    | some fi => v1_string_property props PROPERTY_NAME_FEDERATED_IDENTITY fi false
    | none => props
  let props := match v3_user_value.federated_provider with
    | some fp => v1_string_property props PROPERTY_NAME_FEDERATED_PROVIDER fp false
    | none => props
  V1Entity.mk none props

/-! Validity checks on the v3 PropertyValue union and its meaning. -/

/-- __is_v3_property_value_union_valid: at most one populated type slot. -/
def is_v3_property_value_union_valid (v3_property_value : V3PropertyValue) : Bool :=
  decide (([v3_property_value.booleanValue.isSome,
    v3_property_value.int64Value.isSome,
    v3_property_value.doubleValue.isSome,
    v3_property_value.referencevalue.isSome,
    v3_property_value.stringValue.isSome,
    v3_property_value.pointvalue.isSome,
    v3_property_value.uservalue.isSome].count true) ≤ 1)

/-- __is_v3_property_value_meaning_valid: the populated type slot matches
the declared meaning (dict of checkers in the source; unknown meanings are
invalid). -/
def is_v3_property_value_meaning_valid (v3_property_value : V3PropertyValue)
    (v3_meaning : Nat) : Bool :=
  if v3_meaning = PropertyMeaning.NO_MEANING ∨
      v3_meaning = PropertyMeaning.INDEX_VALUE ∨
      v3_meaning = PropertyMeaning.EMPTY_LIST then true
  else if [PropertyMeaning.BLOB, PropertyMeaning.TEXT, PropertyMeaning.BYTESTRING,
      PropertyMeaning.ATOM_CATEGORY, PropertyMeaning.ATOM_LINK,
      PropertyMeaning.ATOM_TITLE, PropertyMeaning.ATOM_CONTENT,
      PropertyMeaning.ATOM_SUMMARY, PropertyMeaning.ATOM_AUTHOR,
      PropertyMeaning.GD_EMAIL, PropertyMeaning.GD_IM,
      PropertyMeaning.GD_PHONENUMBER, PropertyMeaning.GD_POSTALADDRESS,
      PropertyMeaning.BLOBKEY, PropertyMeaning.ENTITY_PROTO].contains v3_meaning then
    v3_property_value.stringValue.isSome
  else if v3_meaning = PropertyMeaning.GD_WHEN ∨
      v3_meaning = PropertyMeaning.GD_RATING then
    v3_property_value.int64Value.isSome
  else if v3_meaning = PropertyMeaning.GEORSS_POINT then
    v3_property_value.pointvalue.isSome
  else false

/-! Legacy-to-modern property conversion (v3 Property to v4 Value and to
v1 Value).  Each function first runs the union and meaning validity
filters, then the zlib meaning_uri adjustment, then converts the value
body, then applies the surviving meaning, and finally sets the indexed
flag of the destination; the final flag step is split into its own
function to mirror the conditional write of the source exactly. -/

/-- Lines 517 to 627 of the source (v3_property_to_v4_value up to, and
including, the meaning assignment; the trailing indexed-flag write is
set_v4_value_indexed). -/
def v3_property_to_v4_value_body (v3_property : V3Property) (indexed : Bool) :
    V4Value := Id.run do
  let v3_property_value := v3_property.value
  let mut v3_meaning : Option Nat := some v3_property.meaning
  let mut v3_uri_meaning : Option Bytes := none
  if v3_property.meaning_uri ≠ [] then
    v3_uri_meaning := some v3_property.meaning_uri
  if ¬ is_v3_property_value_union_valid v3_property_value then
    v3_meaning := none
    v3_uri_meaning := none
  else if v3_property.meaning = PropertyMeaning.NO_MEANING then
    v3_meaning := none
  else if ¬ is_v3_property_value_meaning_valid v3_property_value
      v3_property.meaning then
    v3_meaning := none
  let mut is_zlib_value : Bool := false
  if let some uri := v3_uri_meaning then
    if uri = URI_MEANING_ZLIB then
      if v3_property_value.stringValue.isSome then
        is_zlib_value := true
        if v3_meaning ≠ some PropertyMeaning.BLOB then
          v3_meaning := some PropertyMeaning.BLOB
  let mut s : V4Scalar := {}
  let mut entity_value : Option V4Entity := none
  if let some b := v3_property_value.booleanValue then
    s := { s with boolean_value := some b }
  else if let some i := v3_property_value.int64Value then
    if v3_meaning = some PropertyMeaning.GD_WHEN then
      s := { s with timestamp_microseconds_value := some i }
      v3_meaning := none
    else
      s := { s with integer_value := some i }
  else if let some d := v3_property_value.doubleValue then
    s := { s with double_value := some d }
  else if let some rv := v3_property_value.referencevalue then
    s := { s with key_value := some (v3_to_v4_key
      (v3_reference_value_to_v3_reference rv)) }
  else if let some string_value := v3_property_value.stringValue then
    if v3_meaning = some PropertyMeaning.ENTITY_PROTO then
      entity_value := some (parse_and_v3_to_v4_entity string_value)
      v3_meaning := none
    else if v3_meaning = some PropertyMeaning.BLOB ∨
        v3_meaning = some PropertyMeaning.BYTESTRING then
      s := { s with blob_value := some string_value }
      if indexed ∨ v3_meaning = some PropertyMeaning.BLOB then
        v3_meaning := none
    else
      if is_valid_utf8 string_value then
        if v3_meaning = some PropertyMeaning.BLOBKEY then
          s := { s with blob_key_value := some string_value }
          v3_meaning := none
        else
          s := { s with string_value := some string_value }
      else
        s := { s with blob_value := some string_value }
        if v3_meaning ≠ some PropertyMeaning.INDEX_VALUE then
          v3_meaning := none
  else if let some point_value := v3_property_value.pointvalue then
    if v3_meaning = some MEANING_GEORSS_POINT then
      s := { s with geo_point_value := some (V4GeoPoint.mk point_value.x point_value.y) }
    else
      entity_value := some (v3_to_v4_point_entity point_value)
      s := { s with meaning := some MEANING_PREDEFINED_ENTITY_POINT }
    v3_meaning := none
  else if let some user_value := v3_property_value.uservalue then
    entity_value := some (v3_user_value_to_v4_entity user_value)
    s := { s with meaning := some MEANING_PREDEFINED_ENTITY_USER }
    v3_meaning := none
  if is_zlib_value then
    s := { s with meaning := some MEANING_ZLIB }
  else if let some m := v3_meaning then
    if m ≠ 0 then
      s := { s with meaning := some m }
  pure (V4Value.mk s entity_value [])

/-- Lines 629 to 630 of the source: write the indexed field only when the
current (possibly default) reading differs from the target. -/
def set_v4_value_indexed (indexed : Bool) (v4_value : V4Value) : V4Value :=
  if indexed ≠ v4_value.indexedRead then
    v4_value.withScalar { v4_value.scalar with indexed := some indexed }
  else v4_value

/-- v3_property_to_v4_value: value-body and meaning conversion followed by
the conditional indexed-flag write. -/
def v3_property_to_v4_value (v3_property : V3Property) (indexed : Bool) : V4Value :=
  set_v4_value_indexed indexed (v3_property_to_v4_value_body v3_property indexed)

/-- __add_v4_property_to_entity: add a converted value to the accumulated
name-to-property map, creating the entry when needed; a multiple property
appends to the list_value of the entry, a single one replaces its value. -/
def add_v4_property_to_entity (props : List (Bytes × V4Value))
    (v3_property : V3Property) (indexed : Bool) : List (Bytes × V4Value) :=
  let property_name := v3_property.name
  let cur := (dictLookup props property_name).getD V4Value.empty
  if v3_property.multiple then
    let element := v3_property_to_v4_value v3_property indexed
    mapSet props property_name (V4Value.mk cur.scalar cur.entity_value
      (cur.list_value ++ [element]))
  else
    mapSet props property_name (v3_property_to_v4_value v3_property indexed)

/-- v3_to_v4_entity: convert the key (cleared again when the v3 key has no
app field) and then every indexed and raw property. -/
def v3_to_v4_entity (v3_entity : V3EntityProto) : V4Entity :=
  let key := if v3_entity.key.appRead ≠ [] ∧ v3_entity.key.app.isSome then
      some (v3_to_v4_key v3_entity.key)
    else none
  let props := v3_entity.property.foldl
    (fun m p => add_v4_property_to_entity m p true) []
  let props := v3_entity.raw_property.foldl
    (fun m p => add_v4_property_to_entity m p false) props
  V4Entity.mk key props

/-- Lines 1136 to 1243 of the source (v3_property_to_v1_value up to, and
including, the meaning assignment; the trailing exclude_from_indexes write
is set_v1_value_exclude_from_indexes). -/
def v3_property_to_v1_value_body (res : IdResolver) (v3_property : V3Property)
    (indexed : Bool) : V1Value := Id.run do
  let v3_property_value := v3_property.value
  let mut v3_meaning : Option Nat := some v3_property.meaning
  let mut v3_uri_meaning : Option Bytes := none
  if v3_property.meaning_uri ≠ [] then
    v3_uri_meaning := some v3_property.meaning_uri
  if ¬ is_v3_property_value_union_valid v3_property_value then
    v3_meaning := none
    v3_uri_meaning := none
  else if v3_property.meaning = PropertyMeaning.NO_MEANING then
    v3_meaning := none
  else if ¬ is_v3_property_value_meaning_valid v3_property_value
      v3_property.meaning then
    v3_meaning := none
  let mut is_zlib_value : Bool := false
  if let some uri := v3_uri_meaning then
    if uri = URI_MEANING_ZLIB then
      if v3_property_value.stringValue.isSome then
        is_zlib_value := true
        if v3_meaning ≠ some PropertyMeaning.BLOB then
          v3_meaning := some PropertyMeaning.BLOB
  let mut vt : Option V1ValueType := none
  let mut v1_meaning : Nat := 0
  if v3_property.meaning = PropertyMeaning.EMPTY_LIST then
    vt := some (.array_value [])
    v3_meaning := none
  else if let some b := v3_property_value.booleanValue then
    vt := some (.boolean_value b)
  else if let some i := v3_property_value.int64Value then
    if v3_meaning = some PropertyMeaning.GD_WHEN ∧ is_in_rfc_3339_bounds i then
      vt := some (.timestamp_value i)
      v3_meaning := none
    else
      vt := some (.integer_value i)
  else if let some d := v3_property_value.doubleValue then
    vt := some (.double_value d)
  else if let some rv := v3_property_value.referencevalue then
    vt := some (.key_value (v3_to_v1_key res
      (v3_reference_value_to_v3_reference rv)))
  else if let some string_value := v3_property_value.stringValue then
    if v3_meaning = some PropertyMeaning.ENTITY_PROTO then
      vt := some (.entity_value (parse_and_v3_to_v1_entity res string_value))
      v3_meaning := none
    else if v3_meaning = some PropertyMeaning.BLOB ∨
        v3_meaning = some PropertyMeaning.BYTESTRING then
      vt := some (.blob_value string_value)
      if indexed ∨ v3_meaning = some PropertyMeaning.BLOB then
        v3_meaning := none
    else
      if is_valid_utf8 string_value then
        vt := some (.string_value string_value)
      else
        vt := some (.blob_value string_value)
        if v3_meaning ≠ some PropertyMeaning.INDEX_VALUE then
          v3_meaning := none
  else if let some point_value := v3_property_value.pointvalue then
    if v3_meaning ≠ some MEANING_GEORSS_POINT then
      v1_meaning := MEANING_POINT_WITHOUT_V3_MEANING
    vt := some (.geo_point_value point_value.x point_value.y)
    v3_meaning := none
  else if let some user_value := v3_property_value.uservalue then
    vt := some (.entity_value (v3_user_value_to_v1_entity user_value))
    v1_meaning := MEANING_PREDEFINED_ENTITY_USER
    v3_meaning := none
  else
    vt := some .null_value
  if is_zlib_value then
    v1_meaning := MEANING_ZLIB
  else if let some m := v3_meaning then
    if m ≠ 0 then
      v1_meaning := m
  pure (V1Value.mk vt v1_meaning false)

/-- Lines 1245 to 1246 of the source: write exclude_from_indexes only when
the current (default false on a fresh value) reading equals indexed, that
is, only when it does not already read the target value. -/
def set_v1_value_exclude_from_indexes (indexed : Bool) (v1_value : V1Value) : V1Value :=
  if indexed = v1_value.exclude_from_indexes then
    V1Value.mk v1_value.value_type v1_value.meaning (!indexed)
  else v1_value

/-- v3_property_to_v1_value: value-body and meaning conversion followed by
the conditional exclude_from_indexes write. -/
def v3_property_to_v1_value (res : IdResolver) (v3_property : V3Property)
    (indexed : Bool) : V1Value :=
  set_v1_value_exclude_from_indexes indexed
    (v3_property_to_v1_value_body res v3_property indexed)

/-- __add_v1_property_to_entity: populate the properties map entry for the
property; a multiple property appends a fresh element to the array value of
the entry (resetting a non-array payload), a single one replaces it. -/
def add_v1_property_to_entity (res : IdResolver) (props : List (Bytes × V1Value))
    (v3_property : V3Property) (indexed : Bool) : List (Bytes × V1Value) :=
  let property_name := v3_property.name
  let cur := v1MapGet props property_name
  if v3_property.multiple then
    let arr := match cur.value_type with
      | some (.array_value vs) => vs
      | _ => []
    let element := v3_property_to_v1_value res v3_property indexed
    mapSet props property_name
      (V1Value.mk (some (.array_value (arr ++ [element]))) cur.meaning
        cur.exclude_from_indexes)
  else
    mapSet props property_name (v3_property_to_v1_value res v3_property indexed)

/-- v3_to_v1_entity: convert the key (cleared again when the v3 key has no
app field) and then every indexed and raw property. -/
def v3_to_v1_entity (res : IdResolver) (v3_entity : V3EntityProto) : V1Entity :=
  let key := if v3_entity.key.appRead ≠ [] ∧ v3_entity.key.app.isSome then
      some (v3_to_v1_key res v3_entity.key)
    else none
  let props := v3_entity.property.foldl
    (fun m p => add_v1_property_to_entity res m p true) []
  let props := v3_entity.raw_property.foldl
    (fun m p => add_v1_property_to_entity res m p false) props
  V1Entity.mk key props

/-!
Modern-to-legacy conversion (v4/v1 to v3).  These functions genuinely
recurse through embedded entity values, so the whole family is built level
by level over a fuel parameter: level zero always reports outOfFuel, and
level fuel+1 defines the value, property and entity converters, where only
the embedded-entity recursion inside the value converter descends to the
previous level.  Fuel exhaustion is its own error, distinguishable from
every real failure of the source.
-/

structure V4ToV3Fns where
  value : V4Value → Except ConvError V3PropertyValue
  property : Bytes → Bool → Bool → V4Value → Except ConvError V3Property
  entity : V4Entity → Bool → Except ConvError V3EntityProto

def v4ToV3Level : Nat → V4ToV3Fns
  | 0 =>
    { value := fun _ => throw .outOfFuel,
      property := fun _ _ _ _ => throw .outOfFuel,
      entity := fun _ _ => throw .outOfFuel }
  | fuel + 1 =>
    let prev := v4ToV3Level fuel
    let value_fn : V4Value → Except ConvError V3PropertyValue := fun v4_value => do
      let s := v4_value.scalar
      if let some b := s.boolean_value then
        return { booleanValue := some b }
      if let some i := s.integer_value then
        return { int64Value := some i }
      if let some d := s.double_value then
        return { doubleValue := some d }
      if let some t := s.timestamp_microseconds_value then
        return { int64Value := some t }
      if let some k := s.key_value then
        return v3_reference_to_v3_property_value (v4_to_v3_reference k)
      if let some bk := s.blob_key_value then
        return { stringValue := some bk }
      if let some sv := s.string_value then
        return { stringValue := some sv }
      if let some bl := s.blob_value then
        return { stringValue := some bl }
      if let some v4_entity_value := v4_value.entity_value then
        let v4_meaning := v4_value.meaningRead
        if v4_meaning = MEANING_GEORSS_POINT ∨
            v4_meaning = MEANING_PREDEFINED_ENTITY_POINT then
          let pv ← v4_to_v3_point_value v4_entity_value
          return { pointvalue := some pv }
        else if v4_meaning = MEANING_PREDEFINED_ENTITY_USER then
          let uv ← v4_entity_to_v3_user_value v4_entity_value
          return { uservalue := some uv }
        else
          let v3_entity_value ← prev.entity v4_entity_value false
          return { stringValue := some (serializePartialToString v3_entity_value) }
      if let some gp := s.geo_point_value then
        return { pointvalue := some (V3PointValue.mk gp.latitude gp.longitude) }
      pure {}
    let property_fn : Bytes → Bool → Bool → V4Value → Except ConvError V3Property :=
      fun property_name is_multi is_projection v4_value => do
        if ¬ v4_value.list_value.isEmpty then
          throw (.assertionFailed ("v4 list_value not convertable to v3"))
        if v4_value.scalar.meaning = some MEANING_EMPTY_LIST then
          return { name := property_name, meaning := MEANING_EMPTY_LIST,
                   multiple := false, value := {} }
        let value ← value_fn v4_value
        let s := v4_value.scalar
        let mut v4_meaning : Option Nat := s.meaning
        let mut p_meaning : Nat := 0
        let mut p_meaning_uri : Bytes := []
        if s.timestamp_microseconds_value.isSome then
          p_meaning := PropertyMeaning.GD_WHEN
        else if s.blob_key_value.isSome then
          p_meaning := PropertyMeaning.BLOBKEY
        else if s.blob_value.isSome then
          if v4_meaning = some MEANING_ZLIB then
            p_meaning_uri := URI_MEANING_ZLIB
          if v4_meaning = some PropertyMeaning.BYTESTRING then
            pure ()
          else
            if v4_value.indexedRead then
              p_meaning := PropertyMeaning.BYTESTRING
            else
              p_meaning := PropertyMeaning.BLOB
            v4_meaning := none
        else if v4_value.entity_value.isSome then
          if v4_meaning ≠ some MEANING_GEORSS_POINT then
            if v4_meaning ≠ some MEANING_PREDEFINED_ENTITY_POINT ∧
                v4_meaning ≠ some MEANING_PREDEFINED_ENTITY_USER then
              p_meaning := PropertyMeaning.ENTITY_PROTO
            v4_meaning := none
        else if s.geo_point_value.isSome then
          p_meaning := MEANING_GEORSS_POINT
        if let some m := v4_meaning then
          p_meaning := m
        if is_projection then
          p_meaning := PropertyMeaning.INDEX_VALUE
        pure { name := property_name, multiple := is_multi, meaning := p_meaning,
               meaning_uri := p_meaning_uri, value := value }
    let entity_fn : V4Entity → Bool → Except ConvError V3EntityProto :=
      fun v4_entity is_projection => do
        let add : V3EntityProto → Bytes → Bool → V4Value →
            Except ConvError V3EntityProto := fun acc property_name is_multi v => do
          let prop ← property_fn property_name is_multi is_projection v
          if v.indexedRead then
            pure { acc with property := acc.property ++ [prop] }
          else
            pure { acc with raw_property := acc.raw_property ++ [prop] }
        let mut acc : V3EntityProto := {}
        for p in v4_entity.property do
          let property_name := p.fst
          let v4_value := p.snd
          if ¬ v4_value.list_value.isEmpty then
            for v4_sub_value in v4_value.list_value do
              acc ← add acc property_name true v4_sub_value
          else
            acc ← add acc property_name false v4_value
        match v4_entity.key with
        | some v4_key =>
          let v3_ref := v4_to_v3_reference v4_key
          let group ← v3_reference_to_group v3_ref
          pure { acc with key := v3_ref, entity_group := group }
        | none => pure acc
    { value := value_fn, property := property_fn, entity := entity_fn }

/-- v4_value_to_v3_property_value at a given recursion fuel. -/
def v4_value_to_v3_property_value (fuel : Nat) (v4_value : V4Value) :
    Except ConvError V3PropertyValue :=
  (v4ToV3Level fuel).value v4_value

/-- v4_to_v3_property at a given recursion fuel. -/
def v4_to_v3_property (fuel : Nat) (property_name : Bytes) (is_multi : Bool)
    (is_projection : Bool) (v4_value : V4Value) : Except ConvError V3Property :=
  (v4ToV3Level fuel).property property_name is_multi is_projection v4_value

/-- v4_to_v3_entity at a given recursion fuel. -/
def v4_to_v3_entity (fuel : Nat) (v4_entity : V4Entity)
    (is_projection : Bool := false) : Except ConvError V3EntityProto :=
  (v4ToV3Level fuel).entity v4_entity is_projection

structure V1ToV3Fns where
  value : V1Value → Except ConvError V3PropertyValue
  property : Bytes → Bool → Bool → V1Value → Except ConvError V3Property
  entity : V1Entity → Bool → Except ConvError V3EntityProto

def v1ToV3Level (res : IdResolver) : Nat → V1ToV3Fns
  | 0 =>
    { value := fun _ => throw .outOfFuel,
      property := fun _ _ _ _ => throw .outOfFuel,
      entity := fun _ _ => throw .outOfFuel }
  | fuel + 1 =>
    let prev := v1ToV3Level res fuel
    let value_fn : V1Value → Except ConvError V3PropertyValue := fun v1_value => do
      match v1_value.value_type with
      | some (.boolean_value b) => pure { booleanValue := some b }
      | some (.integer_value i) => pure { int64Value := some i }
      | some (.double_value d) => pure { doubleValue := some d }
      | some (.timestamp_value micros) => pure { int64Value := some micros }
      | some (.key_value k) => do
        let v3_ref ← v1_to_v3_reference res k
        pure (v3_reference_to_v3_property_value v3_ref)
      | some (.string_value sv) => pure { stringValue := some sv }
      | some (.blob_value bl) => pure { stringValue := some bl }
      | some (.entity_value v1_entity_value) => do
        if v1_value.meaning = MEANING_PREDEFINED_ENTITY_USER then
          let uv ← v1_entity_to_v3_user_value v1_entity_value
          pure { uservalue := some uv }
        else
          let v3_entity_value ← prev.entity v1_entity_value false
          pure { stringValue := some (serializePartialToString v3_entity_value) }
      | some (.geo_point_value latitude longitude) =>
        pure { pointvalue := some (V3PointValue.mk latitude longitude) }
      | some .null_value => pure {}
      | _ => pure {}
    let property_fn : Bytes → Bool → Bool → V1Value → Except ConvError V3Property :=
      fun property_name is_multi is_projection v1_value => do
        if let some (.array_value _) := v1_value.value_type then
          throw (.assertionFailed ("v1 array_value not convertable to v3"))
        let value ← value_fn v1_value
        let mut v1_meaning : Option Nat :=
          if v1_value.meaning ≠ 0 then some v1_value.meaning else none
        let mut p_meaning : Nat := 0
        let mut p_meaning_uri : Bytes := []
        match v1_value.value_type with
        | some (.timestamp_value _) =>
          p_meaning := PropertyMeaning.GD_WHEN
        | some (.blob_value _) =>
          if v1_meaning = some MEANING_ZLIB then
            p_meaning_uri := URI_MEANING_ZLIB
          if v1_meaning = some PropertyMeaning.BYTESTRING then
            pure ()
          else
            if ¬ v1_value.exclude_from_indexes then
              p_meaning := PropertyMeaning.BYTESTRING
            else
              p_meaning := PropertyMeaning.BLOB
            v1_meaning := none
        | some (.entity_value _) =>
          if v1_meaning ≠ some MEANING_PREDEFINED_ENTITY_USER then
            p_meaning := PropertyMeaning.ENTITY_PROTO
          v1_meaning := none
        | some (.geo_point_value _ _) =>
          if v1_meaning ≠ some MEANING_POINT_WITHOUT_V3_MEANING then
            p_meaning := MEANING_GEORSS_POINT
          v1_meaning := none
        | some (.integer_value _) =>
          if v1_meaning = some MEANING_NON_RFC_3339_TIMESTAMP then
            p_meaning := PropertyMeaning.GD_WHEN
            v1_meaning := none
        | _ => pure ()
        if let some m := v1_meaning then
          p_meaning := m
        if is_projection then
          p_meaning := PropertyMeaning.INDEX_VALUE
        pure { name := property_name, multiple := is_multi, meaning := p_meaning,
               meaning_uri := p_meaning_uri, value := value }
    let entity_fn : V1Entity → Bool → Except ConvError V3EntityProto :=
      fun v1_entity is_projection => do
        let place : V3EntityProto → Bool → V3Property → V3EntityProto :=
          fun acc is_indexed prop =>
            if is_indexed then { acc with property := acc.property ++ [prop] }
            else { acc with raw_property := acc.raw_property ++ [prop] }
        let mut acc : V3EntityProto := {}
        for p in v1_entity.properties do
          let property_name := p.fst
          let v1_value := p.snd
          match v1_value.value_type with
          | some (.array_value values) =>
            if values.isEmpty then
              acc := place acc (!v1_value.exclude_from_indexes)
                { name := property_name, multiple := false,
                  meaning := MEANING_EMPTY_LIST, value := {} }
            else
              for v1_sub_value in values do
                let prop ← property_fn property_name true is_projection v1_sub_value
                acc := place acc (!v1_sub_value.exclude_from_indexes) prop
          | _ =>
            let prop ← property_fn property_name false is_projection v1_value
            acc := place acc (!v1_value.exclude_from_indexes) prop
        match v1_entity.key with
        | some v1_key =>
          let v3_ref ← v1_to_v3_reference res v1_key
          let group ← v3_reference_to_group v3_ref
          pure { acc with key := v3_ref, entity_group := group }
        | none => pure acc
    { value := value_fn, property := property_fn, entity := entity_fn }

/-- v1_value_to_v3_property_value at a given recursion fuel. -/
def v1_value_to_v3_property_value (fuel : Nat) (res : IdResolver)
    (v1_value : V1Value) : Except ConvError V3PropertyValue :=
  (v1ToV3Level res fuel).value v1_value

/-- v1_to_v3_property at a given recursion fuel. -/
def v1_to_v3_property (fuel : Nat) (res : IdResolver) (property_name : Bytes)
    (is_multi : Bool) (is_projection : Bool) (v1_value : V1Value) :
    Except ConvError V3Property :=
  (v1ToV3Level res fuel).property property_name is_multi is_projection v1_value

/-- v1_to_v3_entity at a given recursion fuel. -/
def v1_to_v3_entity (fuel : Nat) (res : IdResolver) (v1_entity : V1Entity)
    (is_projection : Bool := false) : Except ConvError V3EntityProto :=
  (v1ToV3Level res fuel).entity v1_entity is_projection

/-! Filter conversion (_QueryConverter). -/

structure V3Filter where
  op : Nat := 0
  property : List V3Property := []

structure V1PropertyFilter where
  op : Nat := 0
  property_name : Bytes := []
  value : V1Value := V1Value.empty

structure V4PropertyFilter where
  operator : Nat := 0
  property_name : Bytes := []
  value : V4Value := V4Value.empty

/-- Modelled from the spec: the defined range of the legacy filter Operator
enum (declared in the external datastore_v3 schema, absent from src).  The
spec identifies the valid range of that enum with the source check op <= 5
(design note on the magic constant in the filter converter). -/
def v3_filter_operator_in_defined_range (op : Nat) : Bool := decide (op ≤ 5)

/-- _v3_filter_to_v1_property_filter: single-property filters with an
operator in range convert by copying op and name and converting the
property value as indexed. -/
def v3_filter_to_v1_property_filter (res : IdResolver) (v3_filter : V3Filter) :
    Except ConvError V1PropertyFilter := do
  check_conversion (decide (v3_filter.property.length = 1)) ("invalid filter")
  check_conversion (v3_filter_operator_in_defined_range v3_filter.op)
    (("unsupported filter op: ") ++ toString v3_filter.op)
  let prop := v3_filter.property.headD {}
  pure { op := v3_filter.op, property_name := prop.name,
         value := v3_property_to_v1_value res prop true }

/-- _v3_filter_to_v4_property_filter. -/
def v3_filter_to_v4_property_filter (v3_filter : V3Filter) :
    Except ConvError V4PropertyFilter := do
  check_conversion (decide (v3_filter.property.length = 1)) ("invalid filter")
  check_conversion (v3_filter_operator_in_defined_range v3_filter.op)
    (("unsupported filter op: ") ++ toString v3_filter.op)
  let prop := v3_filter.property.headD {}
  pure { operator := v3_filter.op, property_name := prop.name,
         value := v3_property_to_v4_value prop true }

/-!
Claim theorems.  Each claim of the specification is settled below; helper
lemmas about the flag-writing steps and the blob conversion path precede
them.
-/

/-- The conditional indexed write of the v4 conversion always leaves the
effective (default-aware) reading of the flag equal to its argument. -/
theorem set_v4_value_indexed_read (indexed : Bool) (v : V4Value) :
    (set_v4_value_indexed indexed v).indexedRead = indexed := by
  cases v with
  | mk s e l =>
    by_cases h : indexed = s.indexed.getD true <;>
      simp [set_v4_value_indexed, V4Value.indexedRead, V4Value.scalar,
        V4Value.withScalar, h]

/-- The conditional indexed write leaves the physical field untouched
exactly when the destination already reads the target value. -/
theorem set_v4_value_indexed_field (indexed : Bool) (v : V4Value) :
    (set_v4_value_indexed indexed v).scalar.indexed
      = if indexed = v.indexedRead then v.scalar.indexed else some indexed := by
  cases v with
  | mk s e l =>
    by_cases h : indexed = s.indexed.getD true <;>
      simp [set_v4_value_indexed, V4Value.indexedRead, V4Value.scalar,
        V4Value.withScalar, h]

/-- The conditional exclude_from_indexes write of the v1 conversion always
leaves the flag reading as the negation of indexed. -/
theorem set_v1_value_exclude_read (indexed : Bool) (v : V1Value) :
    (set_v1_value_exclude_from_indexes indexed v).exclude_from_indexes = !indexed := by
  cases v with
  | mk vt m e =>
    cases indexed <;> cases e <;>
      simp [set_v1_value_exclude_from_indexes, V1Value.exclude_from_indexes]

/-- Value-body conversion of a non-UTF-8 string property whose meaning
selects none of the empty-list, entity, blob or bytestring branches: the
bytes land in blob_value and only the INDEX_VALUE meaning survives. -/
theorem v1_blob_body_of_invalid_utf8 :
    ∀ (res : IdResolver) (name s : Bytes) (indexed : Bool) (m : Nat),
      is_valid_utf8 s = false →
      m ≠ PropertyMeaning.BLOB → m ≠ PropertyMeaning.BYTESTRING →
      m ≠ PropertyMeaning.ENTITY_PROTO → m ≠ PropertyMeaning.EMPTY_LIST →
      v3_property_to_v1_value_body res
          { name := name, meaning := m, value := { stringValue := some s } } indexed
        = V1Value.mk (some (.blob_value s))
            (if m = PropertyMeaning.INDEX_VALUE then PropertyMeaning.INDEX_VALUE else 0)
            false := by
  intro res name s indexed m h h14 h16 h19 h24
  by_cases h18 : m = PropertyMeaning.INDEX_VALUE
  · subst h18
    simp [v3_property_to_v1_value_body, h]
    rfl
  · by_cases h0 : m = 0
    · subst h0
      simp [v3_property_to_v1_value_body, h]
      rfl
    · by_cases hv : is_v3_property_value_meaning_valid { stringValue := some s } m = true
      · simp [v3_property_to_v1_value_body, h, h0, h14, h16, h18, h19, h24, hv]
        rfl
      · simp [v3_property_to_v1_value_body, h, h0, h14, h16, h18, h19, h24, hv]
        rfl

/-- The round-trip property used by C1: a v3 Property with the given value,
no meaning and no meaning_uri converts to a modern value carrying the
indexed flag and converts back to the same property, along both the v4 and
the v1 routes. -/
def scalar_round_trips (name : Bytes) (indexed : Bool) (v : V3PropertyValue) : Prop :=
  v4_to_v3_property 2 name false false
      (v3_property_to_v4_value { name := name, value := v } indexed)
    = .ok { name := name, value := v } ∧
  (v3_property_to_v4_value { name := name, value := v } indexed).indexedRead = indexed ∧
  ∀ res : IdResolver,
    v1_to_v3_property 2 res name false false
        (v3_property_to_v1_value res { name := name, value := v } indexed)
      = .ok { name := name, value := v } ∧
    (v3_property_to_v1_value res { name := name, value := v }
        indexed).exclude_from_indexes = !indexed

/-- C1: for every v3 Property holding a scalar value of unambiguous type
(boolean, double, or a valid-UTF-8 string with no special meaning and no
meaning_uri) and every boolean indexed, converting legacy to modern and
back (v3_property_to_v4_value then v4_to_v3_property, and
v3_property_to_v1_value then v1_to_v3_property) restores the original
property, and the indexed flag is carried faithfully by the modern value. -/
theorem c1_unambiguous_scalar_round_trip :
    ∀ (name : Bytes) (indexed : Bool),
      (∀ b : Bool, scalar_round_trips name indexed { booleanValue := some b }) ∧
      (∀ d : Rat, scalar_round_trips name indexed { doubleValue := some d }) ∧
      (∀ s : Bytes, is_valid_utf8 s = true →
        scalar_round_trips name indexed { stringValue := some s }) := by
  intro name indexed
  refine ⟨fun b => ?_, fun d => ?_, fun s h => ?_⟩
  · cases indexed <;> exact ⟨rfl, rfl, fun res => ⟨rfl, rfl⟩⟩
  · cases indexed <;> exact ⟨rfl, rfl, fun res => ⟨rfl, rfl⟩⟩
  · have hb4 : ∀ ix : Bool, v3_property_to_v4_value_body
        { name := name, value := { stringValue := some s } } ix
        = V4Value.mk { string_value := some s } none [] := by
      intro ix; cases ix <;> (simp [v3_property_to_v4_value_body, h]; rfl)
    have hb1 : ∀ (res : IdResolver) (ix : Bool), v3_property_to_v1_value_body res
        { name := name, value := { stringValue := some s } } ix
        = V1Value.mk (some (.string_value s)) 0 false := by
      intro res ix; cases ix <;> (simp [v3_property_to_v1_value_body, h]; rfl)
    cases indexed <;>
      refine ⟨?_, ?_, fun res => ⟨?_, ?_⟩⟩ <;>
        simp only [scalar_round_trips, v3_property_to_v4_value,
          v3_property_to_v1_value, hb4, hb1] <;> rfl

/-- Witness for C1 at a concrete valid-UTF-8 string. -/
theorem c1_unambiguous_scalar_round_trip_witness :
    is_valid_utf8 (asciiBytes ("hi")) = true ∧
    v4_to_v3_property 2 (asciiBytes ("p")) false false
        (v3_property_to_v4_value
          { name := asciiBytes ("p"),
            value := { stringValue := some (asciiBytes ("hi")) } } true)
      = .ok { name := asciiBytes ("p"),
              value := { stringValue := some (asciiBytes ("hi")) } } :=
  ⟨rfl, ((c1_unambiguous_scalar_round_trip (asciiBytes ("p")) true).2.2
    (asciiBytes ("hi")) (by rfl)).1⟩

/-- C2 counterexample: the bytes 255 are not valid UTF-8; converting the
string property legacy to modern and back yields a legacy property whose
meaning is BYTESTRING (16), not an empty meaning as the claim states. -/
theorem c2_blob_meaning_counterexample :
    is_valid_utf8 [255] = false ∧
    (v1_to_v3_property 2 .identity (asciiBytes ("p")) false false
        (v3_property_to_v1_value .identity
          { name := asciiBytes ("p"), value := { stringValue := some [255] } }
          true)).map V3Property.meaning
      = .ok 16 := ⟨rfl, rfl⟩

/-- C2 as amended: a non-UTF-8 string property (meaning selecting none of
the entity, blob, bytestring or empty-list branches) converts to a modern
blob value with those bytes, and converting back yields a string-typed
legacy value with identical bytes whose meaning is BYTESTRING when the
value was indexed and BLOB when it was not (not an empty meaning). -/
theorem c2_blob_round_trip_amended :
    ∀ (res : IdResolver) (name s : Bytes) (indexed : Bool) (m : Nat),
      is_valid_utf8 s = false →
      m ≠ PropertyMeaning.BLOB → m ≠ PropertyMeaning.BYTESTRING →
      m ≠ PropertyMeaning.ENTITY_PROTO → m ≠ PropertyMeaning.EMPTY_LIST →
      (v3_property_to_v1_value res
          { name := name, meaning := m, value := { stringValue := some s } }
          indexed).value_type = some (.blob_value s) ∧
      (v3_property_to_v1_value res
          { name := name, meaning := m, value := { stringValue := some s } }
          indexed).exclude_from_indexes = !indexed ∧
      (v3_property_to_v1_value res
          { name := name, meaning := m, value := { stringValue := some s } }
          indexed).meaning
        = (if m = PropertyMeaning.INDEX_VALUE then PropertyMeaning.INDEX_VALUE
           else 0) ∧
      v1_to_v3_property 2 res name false false
          (v3_property_to_v1_value res
            { name := name, meaning := m, value := { stringValue := some s } }
            indexed)
        = .ok { name := name, multiple := false,
                meaning := if indexed then PropertyMeaning.BYTESTRING
                  else PropertyMeaning.BLOB,
                value := { stringValue := some s } } := by
  intro res name s indexed m h h14 h16 h19 h24
  have hb := v1_blob_body_of_invalid_utf8 res name s indexed m h h14 h16 h19 h24
  have hrw : v3_property_to_v1_value res
      { name := name, meaning := m, value := { stringValue := some s } } indexed
      = set_v1_value_exclude_from_indexes indexed
          (V1Value.mk (some (.blob_value s))
            (if m = PropertyMeaning.INDEX_VALUE then PropertyMeaning.INDEX_VALUE
             else 0) false) := by
    simp only [v3_property_to_v1_value, hb]
  refine ⟨?_, ?_, ?_, ?_⟩
  · rw [hrw]; cases indexed <;> rfl
  · rw [hrw]; cases indexed <;> rfl
  · rw [hrw]; cases indexed <;> rfl
  · rw [hrw]
    by_cases h18 : m = PropertyMeaning.INDEX_VALUE
    · simp only [if_pos h18]
      cases indexed <;> rfl
    · simp only [if_neg h18]
      cases indexed <;> rfl

/-- Witness for C2 as amended, at the bytes 255 with no meaning, indexed. -/
theorem c2_blob_round_trip_amended_witness :
    is_valid_utf8 [255] = false ∧
    v1_to_v3_property 2 .identity (asciiBytes ("p")) false false
        (v3_property_to_v1_value .identity
          { name := asciiBytes ("p"), value := { stringValue := some [255] } } true)
      = .ok { name := asciiBytes ("p"), meaning := PropertyMeaning.BYTESTRING,
              value := { stringValue := some [255] } } :=
  ⟨rfl, (c2_blob_round_trip_amended .identity (asciiBytes ("p")) [255] true 0
    rfl (by decide) (by decide) (by decide) (by decide)).2.2.2⟩

/-- C3: every v3 PointValue converts to the modern embedded form and back
to the same x and y (also through the property layer), and every v3
UserValue with email, auth_domain and gaiaid 42 and no optional fields
round-trips through both modern embeddings preserving exactly those
fields, leaving obfuscated_gaiaid, federated_identity and
federated_provider unset. -/
theorem c3_point_and_user_round_trip :
    (∀ x y : Rat,
      v4_to_v3_point_value (v3_to_v4_point_entity { x := x, y := y })
        = .ok { x := x, y := y }) ∧
    (∀ (name : Bytes) (indexed : Bool) (x y : Rat),
      v4_value_to_v3_property_value 2
          (v3_property_to_v4_value
            { name := name, value := { pointvalue := some (V3PointValue.mk x y) } }
            indexed)
        = .ok { pointvalue := some (V3PointValue.mk x y) }) ∧
    (∀ email auth_domain : Bytes,
      v4_entity_to_v3_user_value (v3_user_value_to_v4_entity
          { email := some email, auth_domain := some auth_domain, gaiaid := some 42 })
        = .ok { email := some email, auth_domain := some auth_domain,
                gaiaid := some 42 } ∧
      v1_entity_to_v3_user_value (v3_user_value_to_v1_entity
          { email := some email, auth_domain := some auth_domain, gaiaid := some 42 })
        = .ok { email := some email, auth_domain := some auth_domain,
                gaiaid := some 42 }) := by
  refine ⟨fun x y => rfl, fun name indexed x y => ?_, fun e a => ⟨rfl, rfl⟩⟩
  cases indexed <;> rfl

/-- C4: a property explicitly set to an empty list survives the full
modern-legacy-modern round trip in both modern schemas (v1 empty
array_value through the entity converters; v4 empty-list meaning through
the property converters), for every name and indexed flag, and remains
distinguishable from a property that was never set. -/
theorem c4_empty_list_round_trip :
    (∀ (res : IdResolver) (name : Bytes) (exclude : Bool),
      (v1_to_v3_entity 2 res (V1Entity.mk none
          [(name, V1Value.mk (some (.array_value [])) 0 exclude)])).map
            (v3_to_v1_entity res)
        = .ok (V1Entity.mk none
            [(name, V1Value.mk (some (.array_value [])) 0 exclude)])) ∧
    (∀ (res : IdResolver) (name : Bytes),
      dictLookup ((v3_to_v1_entity res {}).properties) name = none) ∧
    (∀ name : Bytes,
      v4_to_v3_property 2 name false false
          (V4Value.mk { meaning := some MEANING_EMPTY_LIST } none [])
        = .ok { name := name, meaning := MEANING_EMPTY_LIST }) ∧
    (∀ (name : Bytes) (indexed : Bool),
      v3_property_to_v4_value { name := name, meaning := MEANING_EMPTY_LIST } indexed
        = V4Value.mk
            { meaning := some MEANING_EMPTY_LIST,
              indexed := if indexed then none else some false } none []) := by
  refine ⟨fun res name exclude => ?_, fun res name => rfl, fun name => rfl,
    fun name indexed => ?_⟩
  · cases exclude <;> rfl
  · cases indexed <;> rfl

/-- C5 counterexample: for a boolean property converted as indexed, the
destination indexed field is left unwritten (it merely reads true through
the proto default), while the claim states the assignment is never
skipped. -/
theorem c5_indexed_write_skipped_counterexample :
    (v3_property_to_v4_value
        { name := asciiBytes ("p"), value := { booleanValue := some true } }
        true).scalar.indexed = none := rfl

/-- C5 as amended: the indexed-flag step runs unconditionally after the
value body as the final step of both conversions, but the physical field
write is conditional: it is skipped exactly when the destination already
reads the target value.  The effective reading afterwards always equals
indexed (v4), respectively not indexed (v1 exclude_from_indexes), for
every property. -/
theorem c5_indexed_flag_amended :
    ∀ (p : V3Property) (indexed : Bool) (res : IdResolver),
      v3_property_to_v4_value p indexed
        = set_v4_value_indexed indexed (v3_property_to_v4_value_body p indexed) ∧
      (v3_property_to_v4_value p indexed).indexedRead = indexed ∧
      (∀ v : V4Value, (set_v4_value_indexed indexed v).scalar.indexed
        = if indexed = v.indexedRead then v.scalar.indexed else some indexed) ∧
      v3_property_to_v1_value res p indexed
        = set_v1_value_exclude_from_indexes indexed
            (v3_property_to_v1_value_body res p indexed) ∧
      (v3_property_to_v1_value res p indexed).exclude_from_indexes = !indexed :=
  fun _p indexed _res =>
    ⟨rfl, set_v4_value_indexed_read indexed _,
      fun v => set_v4_value_indexed_field indexed v, rfl,
      set_v1_value_exclude_read indexed _⟩

/-- Family of embedded v4 user entities used by C6: required email and
auth_domain plus any combination of the optional fields. -/
def mk_v4_user_entity (email auth_domain : Bytes) (user_id : Option Bytes)
    (internal_id : Option Int) (federated_identity federated_provider : Option Bytes) :
    V4Entity :=
  V4Entity.mk none
    ([v4_string_property PROPERTY_NAME_EMAIL email false,
      v4_string_property PROPERTY_NAME_AUTH_DOMAIN auth_domain false] ++
     (match user_id with
      | some u => [v4_string_property PROPERTY_NAME_USER_ID u false]
      | none => []) ++
     (match internal_id with
      | some i => [v4_integer_property PROPERTY_NAME_INTERNAL_ID i false]
      | none => []) ++
     (match federated_identity with
      | some fi => [v4_string_property PROPERTY_NAME_FEDERATED_IDENTITY fi false]
      | none => []) ++
     (match federated_provider with
      | some fp => [v4_string_property PROPERTY_NAME_FEDERATED_PROVIDER fp false]
      | none => []))

/-- Family of embedded v1 user entities used by C6. -/
def mk_v1_user_entity (email auth_domain : Bytes) (user_id : Option Bytes)
    (internal_id : Option Int) (federated_identity federated_provider : Option Bytes) :
    V1Entity :=
  V1Entity.mk none
    ([(PROPERTY_NAME_EMAIL, V1Value.mk (some (.string_value email)) 0 true),
      (PROPERTY_NAME_AUTH_DOMAIN,
        V1Value.mk (some (.string_value auth_domain)) 0 true)] ++
     (match user_id with
      | some u => [(PROPERTY_NAME_USER_ID, V1Value.mk (some (.string_value u)) 0 true)]
      | none => []) ++
     (match internal_id with
      | some i =>
        [(PROPERTY_NAME_INTERNAL_ID, V1Value.mk (some (.integer_value i)) 0 true)]
      | none => []) ++
     (match federated_identity with
      | some fi =>
        [(PROPERTY_NAME_FEDERATED_IDENTITY, V1Value.mk (some (.string_value fi)) 0 true)]
      | none => []) ++
     (match federated_provider with
      | some fp =>
        [(PROPERTY_NAME_FEDERATED_PROVIDER, V1Value.mk (some (.string_value fp)) 0 true)]
      | none => []))

/-- C6 counterexample: decoding a v4 embedded point without the required x
property, or a v4 embedded user without the required email property, fails
with a KeyError escaping the plain dict subscript, not with the
invalid-conversion error the claim states. -/
theorem c6_missing_required_field_counterexample :
    v4_to_v3_point_value (V4Entity.mk none [v4_double_property PROPERTY_NAME_Y 1 false])
      = .error (.keyError PROPERTY_NAME_X) ∧
    v4_entity_to_v3_user_value (V4Entity.mk none [])
      = .error (.keyError PROPERTY_NAME_EMAIL) := ⟨rfl, rfl⟩

set_option maxHeartbeats 1600000 in
/-- C6 as amended: decoding an embedded point or user raises the
invalid-conversion error when a required field is present with the wrong
type (both schemas) or absent in the v1 schema (where the auto-defaulting
proto map feeds the checked read); an absent required field in the v4
schema raises a KeyError instead.  Optional user fields are reconstructed
exactly when present, gaiaid defaulting to 0 when internal_id is absent. -/
theorem c6_embedded_decode_amended :
    (∀ (s : Bytes) (y : Rat),
      v4_to_v3_point_value (V4Entity.mk none
          [v4_string_property PROPERTY_NAME_X s false,
           v4_double_property PROPERTY_NAME_Y y false])
        = .error (.invalidConversion ("Property does not contain a double value."))) ∧
    (∀ y : Rat,
      v4_to_v3_point_value (V4Entity.mk none [v4_double_property PROPERTY_NAME_Y y false])
        = .error (.keyError PROPERTY_NAME_X)) ∧
    v1_entity_to_v3_user_value (V1Entity.mk none [])
      = .error (.invalidConversion ("Value does not contain a string value.")) ∧
    (∀ i : Int,
      v1_entity_to_v3_user_value (V1Entity.mk none
          [(PROPERTY_NAME_EMAIL, V1Value.mk (some (.integer_value i)) 0 true)])
        = .error (.invalidConversion ("Value does not contain a string value."))) ∧
    (∀ (email auth_domain : Bytes) (user_id : Option Bytes) (internal_id : Option Int)
        (federated_identity federated_provider : Option Bytes),
      v4_entity_to_v3_user_value (mk_v4_user_entity email auth_domain user_id
          internal_id federated_identity federated_provider)
        = .ok { email := some email, auth_domain := some auth_domain,
                obfuscated_gaiaid := user_id, gaiaid := some (internal_id.getD 0),
                federated_identity := federated_identity,
                federated_provider := federated_provider } ∧
      v1_entity_to_v3_user_value (mk_v1_user_entity email auth_domain user_id
          internal_id federated_identity federated_provider)
        = .ok { email := some email, auth_domain := some auth_domain,
                obfuscated_gaiaid := user_id, gaiaid := some (internal_id.getD 0),
                federated_identity := federated_identity,
                federated_provider := federated_provider }) := by
  refine ⟨fun s y => rfl, fun y => rfl, rfl, fun i => rfl,
    fun e a uid iid fi fp => ?_⟩
  cases uid <;> cases iid <;> cases fi <;> cases fp <;> exact ⟨rfl, rfl⟩

/-- A v3 Reference with a one-element path and no app, used by C7. -/
def c7_sample_ref : V3Reference :=
  { path := { element := [{ type := some (asciiBytes ("Kind")), id := some 5 }] } }

/-- C7 counterexample: with an absent app the key converters return an
entirely cleared destination, so the nonempty path is not converted
verbatim as the claim states. -/
theorem c7_empty_app_drops_path_counterexample :
    (v3_to_v4_key c7_sample_ref).path_element = [] ∧
    (v3_to_v1_key .identity c7_sample_ref).path = [] ∧
    c7_sample_ref.path.element ≠ [] := ⟨rfl, rfl, by decide⟩

/-- C7 as amended: when the app field is empty or absent the whole
destination key is left cleared (partition and path alike) and the empty
app round-trips to an absent one; when app is nonempty the partition id is
populated from it (namespace only when nonempty) and the path elements are
converted verbatim, copying kind and whichever of id and name is
populated (with name winning in the v1 oneof when both are). -/
theorem c7_key_conversion_amended :
    ∀ (res : IdResolver) (v3_ref : V3Reference),
      (v3_ref.appRead = [] →
        v3_to_v4_key v3_ref = {} ∧ v3_to_v1_key res v3_ref = {} ∧
        (v4_to_v3_reference (v3_to_v4_key v3_ref)).app = none) ∧
      (v3_ref.appRead ≠ [] →
        (v3_to_v4_key v3_ref).partition_id = some (V4PartitionId.mk
            (some v3_ref.appRead)
            (if v3_ref.nameSpaceRead = [] then none else some v3_ref.nameSpaceRead)) ∧
        (v3_to_v4_key v3_ref).path_element = v3_ref.path.element.map
          (fun v3_element => V4PathElement.mk (v3_element.type.getD [])
            v3_element.id v3_element.name) ∧
        (v3_to_v1_key res v3_ref).partition_id = some (V1PartitionId.mk
            (res.resolve_project_id v3_ref.appRead) v3_ref.nameSpaceRead) ∧
        (v3_to_v1_key res v3_ref).path = v3_ref.path.element.map
          (fun v3_element => V1PathElement.mk (v3_element.type.getD [])
            (match v3_element.name with
              | some n => some (.name n)
              | none => match v3_element.id with
                | some i => some (.id i)
                | none => none))) := by
  intro res v3_ref
  constructor
  · intro h
    refine ⟨?_, ?_, ?_⟩ <;> simp [v3_to_v4_key, v3_to_v1_key, v4_to_v3_reference, h]
  · intro h
    refine ⟨?_, ?_, ?_, ?_⟩ <;> simp [v3_to_v4_key, v3_to_v1_key, h]

/-- Witness for C7 as amended, at a cleared reference and at a reference
with app and a one-element path. -/
theorem c7_key_conversion_amended_witness :
    v3_to_v4_key ({} : V3Reference) = {} ∧
    (v3_to_v4_key { app := some (asciiBytes ("s~a")), path := c7_sample_ref.path }).path_element
      = [{ kind := asciiBytes ("Kind"), id := some 5, name := none }] :=
  ⟨((c7_key_conversion_amended .identity {}).1 (by rfl)).1,
    (((c7_key_conversion_amended .identity
        { app := some (asciiBytes ("s~a")), path := c7_sample_ref.path }).2
      (by decide)).2.1).trans (by rfl)⟩

/-- C8: filter conversion rejects multi-property filters with the
invalid-conversion error, rejects operators outside the defined legacy
range with an invalid-conversion error citing the operator code, and
otherwise copies the operator and property name and converts the value as
indexed, for both the v1 and the v4 converters. -/
theorem c8_filter_conversion :
    ∀ (res : IdResolver) (v3_filter : V3Filter),
      v3_filter_to_v1_property_filter res v3_filter
        = (if v3_filter.property.length ≠ 1 then
             .error (.invalidConversion ("invalid filter"))
           else if v3_filter_operator_in_defined_range v3_filter.op = false then
             .error (.invalidConversion
               (("unsupported filter op: ") ++ toString v3_filter.op))
           else .ok { op := v3_filter.op,
                      property_name := (v3_filter.property.headD {}).name,
                      value := v3_property_to_v1_value res
                        (v3_filter.property.headD {}) true }) ∧
      v3_filter_to_v4_property_filter v3_filter
        = (if v3_filter.property.length ≠ 1 then
             .error (.invalidConversion ("invalid filter"))
           else if v3_filter_operator_in_defined_range v3_filter.op = false then
             .error (.invalidConversion
               (("unsupported filter op: ") ++ toString v3_filter.op))
           else .ok { operator := v3_filter.op,
                      property_name := (v3_filter.property.headD {}).name,
                      value := v3_property_to_v4_value
                        (v3_filter.property.headD {}) true }) := by
  intro res v3_filter
  by_cases hlen : v3_filter.property.length = 1 <;>
    by_cases hop : v3_filter.op ≤ 5 <;>
      constructor <;>
        (simp [v3_filter_to_v1_property_filter, v3_filter_to_v4_property_filter,
          check_conversion, v3_filter_operator_in_defined_range, hlen, hop]) <;> rfl

/-- C9: resolve_project_id of a table resolver is the total deterministic
suffix-after-last-tilde function; on the resolver built from s~myapp it
maps s~myapp to myapp and resolve_app_id maps myapp back to s~myapp, while
any project id outside the table fails with the invalid-conversion error
naming that id. -/
theorem c9_id_resolver :
    (∀ (m : List (Bytes × Bytes)) (app_id : Bytes),
      (IdResolver.table m).resolve_project_id app_id = rsplit_tilde_last app_id) ∧
    (IdResolver.ofAppIds [asciiBytes ("s~myapp")]).resolve_project_id
        (asciiBytes ("s~myapp")) = asciiBytes ("myapp") ∧
    (IdResolver.ofAppIds [asciiBytes ("s~myapp")]).resolve_app_id
        (asciiBytes ("myapp")) = .ok (asciiBytes ("s~myapp")) ∧
    (IdResolver.ofAppIds [asciiBytes ("s~myapp")]).resolve_app_id
        (asciiBytes ("unknown")) = .error (.invalidConversion
          ("Cannot determine application id for provided project id: \"unknown\".")) ∧
    (∀ (m : List (Bytes × Bytes)) (project_id : Bytes),
      dictLookup m project_id = none →
      (IdResolver.table m).resolve_app_id project_id = .error (.invalidConversion
        ("Cannot determine application id for provided project id: \"" ++
          bytesAscii project_id ++ "\"."))) := by
  refine ⟨fun m a => rfl, rfl, rfl, rfl, fun m pid h => ?_⟩
  simp [IdResolver.resolve_app_id, check_conversion, h]

/-- Witness for C9 at the unknown project id. -/
theorem c9_id_resolver_witness :
    (IdResolver.table [(asciiBytes ("myapp"), asciiBytes ("s~myapp"))]).resolve_app_id
        (asciiBytes ("unknown")) = .error (.invalidConversion
          ("Cannot determine application id for provided project id: \"unknown\".")) :=
  c9_id_resolver.2.2.2.2 [(asciiBytes ("myapp"), asciiBytes ("s~myapp"))]
    (asciiBytes ("unknown")) (by rfl)

/-- C10 counterexample: the v4 predicate does not report the key with a
last-element id of 5 complete - it raises TypeError, because the source
calls the repeated path_element container instead of subscripting it -
and the v1 predicate reports complete a key whose last element carries no
id and only a present-but-empty name. -/
theorem c10_completeness_counterexample :
    is_complete_v4_key { path_element := [{ kind := asciiBytes ("Kind"), id := some 5 }] }
      = .error (.typeError ("RepeatedCompositeContainer object is not callable")) ∧
    is_complete_v1_key
        { path := [{ kind := asciiBytes ("Kind"), id_type := some (.name []) }] }
      = true := ⟨rfl, rfl⟩

/-- C10 as amended: for keys with a nonempty path the v3 and v1 predicates
decide on the last path element - v3 demands a nonzero id or a nonempty
name (value truthiness), v1 only that the id_type oneof is set, even with
an empty name payload - while the v4 predicate never returns a boolean:
the source calls the repeated path_element container instead of
subscripting it, so it raises TypeError on every such key.  In v3 and v1
the element with neither id nor name is incomplete and the element with
id 5 complete. -/
theorem c10_key_completeness_amended :
    (∀ (k : V3Reference) (last_element : V3PathElement),
      k.path.element.getLast? = some last_element →
      is_complete_v3_key k
        = ((last_element.id.isSome && decide (last_element.id.getD 0 ≠ 0)) ||
           (last_element.name.isSome && decide (last_element.name.getD [] ≠ [])))) ∧
    (∀ k : V4Key, k.path_element ≠ [] →
      is_complete_v4_key k
        = .error (.typeError ("RepeatedCompositeContainer object is not callable"))) ∧
    (∀ (k : V1Key) (last_element : V1PathElement),
      k.path.getLast? = some last_element →
      is_complete_v1_key k = last_element.id_type.isSome) ∧
    is_complete_v3_key { path := { element := [{ type := some (asciiBytes ("Kind")) }] } }
      = false ∧
    is_complete_v3_key
        { path := { element := [{ type := some (asciiBytes ("Kind")), id := some 5 }] } }
      = true ∧
    is_complete_v1_key { path := [{ kind := asciiBytes ("Kind") }] } = false ∧
    is_complete_v1_key
        { path := [{ kind := asciiBytes ("Kind"), id_type := some (.id 5) }] } = true := by
  refine ⟨fun k last_element h => ?_, fun k h => ?_, fun k last_element h => ?_,
    rfl, rfl, rfl, rfl⟩
  · simp [is_complete_v3_key, h]
  · cases hp : k.path_element with
    | nil => exact absurd hp h
    | cons a l =>
      simp [is_complete_v4_key, hp]
      rfl
  · simp [is_complete_v1_key, h]

/-- Witness for C10 as amended at concrete v4 and v1 keys. -/
theorem c10_key_completeness_amended_witness :
    is_complete_v4_key { path_element := [{ kind := asciiBytes ("Kind"), id := some 5 }] }
      = .error (.typeError ("RepeatedCompositeContainer object is not callable")) ∧
    is_complete_v1_key { path := [{ kind := asciiBytes ("Kind"), id_type := some (.id 5) }] }
      = (some (V1IdType.id 5)).isSome :=
  ⟨c10_key_completeness_amended.2.1 _ (by decide),
    c10_key_completeness_amended.2.2.1 _
      { kind := asciiBytes ("Kind"), id_type := some (.id 5) } (by rfl)⟩
